import Mathlib

/-!
# MindGuardian: verification of the spec against `src/main.py`

A shallow embedding of the MindGuardian program (a rule-based burnout
monitor over a SQLite-backed profile store, with mocked LLM calls) into
Lean 4, together with theorems settling the spec's claims.

Modelling conventions:
* Python `int` is `Int` (no overflow in Python); minute counts and
  timestamps used only additively are `Nat`.
* Python `float` appears only as `task_completion_rate`; the program only
  ever stores exact decimal literals (`0.0`), so it is modelled as `Rat`.
* A Python dict with known optional keys is a structure of `Option` fields;
  `dict.get(k, default)` is `Option.getD`.
* The SQLite `profiles` table is a map `user_id -> Option (row)`; a row is
  the JSON-serialized profile plus the `updated_at` timestamp column.
  JSON `dumps`/`loads` over the serializable profile fields is modelled by
  the `ProfileData` record (`none` encodes JSON `null`).
* A Python function that can raise returns `Option` (`none` = exception).
-/

namespace MindGuardian

/-! ## Definitions -/

/-- The three session counters that `SentinelAgent.check_signals` reads from
the `session_data` dict; each may be absent (`none`). -/
structure SessionData where
  current_mood : Option Int
  task_skips : Option Int
  continuous_work_minutes : Option Int
deriving DecidableEq

/-- Dataclass `BurnoutAlert` from `src/main.py`. -/
structure BurnoutAlert where
  severity : String
  signals : List String
  suggested_action : String
deriving DecidableEq

/-- Embedding of `SentinelAgent.check_signals` (src/main.py lines 173-188):
reads the three counters with defaults `5`, `0`, `0`; appends the signal
names in source order; severity is `HIGH` for more than one signal,
`MEDIUM` for a nonempty signal list, else `LOW`; action `replan` unless
severity is `LOW`. -/
def check_signals (session_data : SessionData) : BurnoutAlert :=
  let mood := session_data.current_mood.getD 5
  let skips := session_data.task_skips.getD 0
  let work_time := session_data.continuous_work_minutes.getD 0
  let signals :=
    (if mood < 3 then ["low_mood"] else []) ++
    (if skips > 2 then ["high_skips"] else []) ++
    (if work_time > 45 then ["overwork"] else [])
  let severity :=
    if signals.length > 1 then "HIGH" else if signals ≠ [] then "MEDIUM" else "LOW"
  { severity := severity
    signals := signals
    suggested_action := if severity ≠ "LOW" then "replan" else "continue" }

/-- Number of threshold breaches among the three counters (with the
`check_signals` defaults for absent counters). -/
def firedCount (d : SessionData) : Nat :=
  (if d.current_mood.getD 5 < 3 then 1 else 0) +
  (if d.task_skips.getD 0 > 2 then 1 else 0) +
  (if d.continuous_work_minutes.getD 0 > 45 then 1 else 0)

/-- One entry of the schedule list built by `CalendarTool.execute`.
Wall-clock datetimes are minutes (`Nat`); the source formats them with
`strftime` only for display. `break_duration` and `load_level` are the
literal strings the source stores. -/
structure ScheduleBlock where
  study_start : Nat
  study_end : Nat
  break_duration : String
  load_level : String
deriving DecidableEq

/-- Result dict of `CalendarTool.execute`. -/
structure CalendarResult where
  schedule : List ScheduleBlock
  total_duration : Nat
deriving DecidableEq

/-- Python `range(0, stop, 50)` (src/main.py line 109): the indices
`0, 50, 100, ...` strictly below `stop`. Only the length of this list
matters to the loop; the index `i` is unused in the body. -/
def pyRange50 (stop : Nat) : List Nat :=
  (List.range ((stop + 49) / 50)).map (· * 50)

/-- Loop body of `CalendarTool.execute` (src/main.py lines 109-117),
run once per element of `range(0, duration_minutes, 50)`. Note the source
computes `end = min(now + 50, now + duration_minutes)` with the *current*
`now`, then advances `now` to `end + 10`. -/
def calendarLoop : List Nat → Nat → Nat → List ScheduleBlock
  | [], _, _ => []
  | _ :: rest, now, duration_minutes =>
    let e := min (now + 50) (now + duration_minutes)
    { study_start := now, study_end := e,
      break_duration := "10min", load_level := "medium" } ::
      calendarLoop rest (e + 10) duration_minutes

/-- Embedding of `CalendarTool.execute` (src/main.py lines 105-120), with
the start wall-clock time `now` (minutes) made an explicit parameter. -/
def CalendarTool.execute (now : Nat) (duration_minutes : Nat) : CalendarResult :=
  { schedule := calendarLoop (pyRange50 duration_minutes) now duration_minutes
    total_duration := duration_minutes }

/-- Work length (minutes) of one schedule block. -/
def workLen (b : ScheduleBlock) : Nat := b.study_end - b.study_start

/-- One entry of `mood_history`: the dict appended by
`TwinBuilderAgent.build_profile` (timestamp, mood, context). -/
structure MoodEntry where
  timestamp : String
  mood : Int
  context : String
deriving DecidableEq

/-- Dataclass `UserProfile` after `__post_init__` (src/main.py lines 26-40):
the four container fields are materialized lists/mappings, never `None`.
`burnout_patterns` is a mapping used only for storage; its JSON-serializable
values are modelled as strings. `created_at` may be `None`. -/
structure UserProfile where
  user_id : String
  goals : List String
  mood_history : List MoodEntry
  burnout_patterns : List (String × String)
  peak_hours : List String
  task_completion_rate : Rat
  created_at : Option String
deriving DecidableEq

/-- The JSON object `json.dumps(asdict(profile))` stored in the `profile`
column, field by field; `none` encodes JSON `null`. The four container
fields are `Option`-typed because `UserProfile(**data)` accepts `null`
there and `__post_init__` replaces it with an empty container. -/
structure ProfileData where
  user_id : String
  goals : Option (List String)
  mood_history : Option (List MoodEntry)
  burnout_patterns : Option (List (String × String))
  peak_hours : Option (List String)
  task_completion_rate : Rat
  created_at : Option String
deriving DecidableEq

/-- Serialization `dataclasses.asdict` followed by `json.dumps` on a
post-init profile: every container field is present (non-null). -/
def UserProfile.asdict (p : UserProfile) : ProfileData :=
  { user_id := p.user_id
    goals := some p.goals
    mood_history := some p.mood_history
    burnout_patterns := some p.burnout_patterns
    peak_hours := some p.peak_hours
    task_completion_rate := p.task_completion_rate
    created_at := p.created_at }

/-- Deserialization `UserProfile(**profile_data)` with `__post_init__`
defaulting (src/main.py lines 36-40): `None` containers become empty. -/
def UserProfile.fromData (d : ProfileData) : UserProfile :=
  { user_id := d.user_id
    goals := d.goals.getD []
    mood_history := d.mood_history.getD []
    burnout_patterns := d.burnout_patterns.getD []
    peak_hours := d.peak_hours.getD []
    task_completion_rate := d.task_completion_rate
    created_at := d.created_at }

/-- The `profiles` table: `user_id` is the primary key, each row holds the
serialized profile and the `updated_at` timestamp column. -/
def Store := String → Option (ProfileData × Nat)

/-- The empty database, as created by `MemoryBank.init_db`. -/
def Store.empty : Store := fun _ => none

/-- Embedding of `MemoryBank.save_profile` (src/main.py lines 92-100):
`INSERT OR REPLACE` keyed by `profile.user_id`, storing the serialized
profile and the current timestamp `t`. -/
def save_profile (db : Store) (profile : UserProfile) (t : Nat) : Store :=
  fun uid => if uid = profile.user_id then some (profile.asdict, t) else db uid

/-- Embedding of `MemoryBank.load_profile` (src/main.py lines 77-90): return
the stored profile deserialized if the row exists (the stored JSON text of a
dict is never empty, so the `result and result[0]` truthiness test is just
presence), else a fresh default profile with `created_at` the current time
`now`. -/
def load_profile (db : Store) (user_id : String) (now : String) : UserProfile :=
  match db user_id with
  | some (d, _) => UserProfile.fromData d
  | none =>
    { user_id := user_id, goals := [], mood_history := [], burnout_patterns := [],
      peak_hours := [], task_completion_rate := 0, created_at := some now }

/-- Embedding of `TwinBuilderAgent.build_profile` (src/main.py lines
143-153): load the profile, overwrite `goals`, append one mood entry with
context `session_start`, save, and return the profile. Returns the updated
profile and the updated store. -/
def build_profile (db : Store) (user_id : String) (goals : List String) (mood : Int)
    (now : String) (t : Nat) : UserProfile × Store :=
  let profile := load_profile db user_id now
  let profile :=
    { profile with
      goals := goals
      mood_history := profile.mood_history ++
        [{ timestamp := now, mood := mood, context := "session_start" }] }
  (profile, save_profile db profile t)

/-- Helper for `pySplit`: walk the characters accumulating the current word
(reversed); whitespace ends a word, empty pieces are dropped. -/
def splitWordsAux : List Char → List Char → List String
  | [], acc => if acc.isEmpty then [] else [String.mk acc.reverse]
  | c :: cs, acc =>
    if c.isWhitespace then
      if acc.isEmpty then splitWordsAux cs []
      else String.mk acc.reverse :: splitWordsAux cs []
    else splitWordsAux cs (c :: acc)

/-- Python `str.split()` with no argument: split on runs of whitespace,
discarding empty pieces. -/
def pySplit (s : String) : List String :=
  splitWordsAux s.toList []

/-- Python `str.lower()`, character-wise (the program only lowercases ASCII
text). -/
def strLower (s : String) : String :=
  String.mk (s.toList.map Char.toLower)

/-- The canned response table of `GeminiMock.generate_content`
(src/main.py lines 125-130). -/
def responses : List (String × String) :=
  [("build_profile", "Profile updated: peak hours 10-12, burnout after 90min math"),
   ("plan_schedule",
     "\x7b\"tasks\": [\x7b\"subject\": \"Math\", \"load\": \"high\", \"duration\": 50\x7d]\x7d"),
   ("coach", "I see you\x27ve done 45min high-load work. Let\x27s take a 10min breathing break."),
   ("evaluate", "Interventions successful: mood +1.2, completion 85% vs 60% historical")]

/-- Embedding of `GeminiMock.generate_content` (src/main.py lines 124-131):
`responses.get(prompt.split()[0].lower(), "Agent processed request")`.
On a prompt with no words, `prompt.split()[0]` raises `IndexError`,
modelled as `none`. -/
def generate_content (prompt : String) : Option String :=
  match pySplit prompt with
  | [] => none
  | w :: _ => some ((responses.lookup (strLower w)).getD "Agent processed request")

/-- Test whether `pat` occurs at the start of `s` (character lists). -/
def charsBeginWith : List Char → List Char → Bool
  | _, [] => true
  | [], _ :: _ => false
  | c :: cs, p :: ps => c == p && charsBeginWith cs ps

/-- Python `pat in s` for strings: `pat` occurs as a contiguous substring. -/
def charsContain : List Char → List Char → Bool
  | [], pat => pat.isEmpty
  | c :: cs, pat => charsBeginWith (c :: cs) pat || charsContain cs pat

/-- Python `"math" in g.lower()` (src/main.py line 163). -/
def containsMath (g : String) : Bool :=
  charsContain (strLower g).toList "math".toList

/-- Result dict of `PlannerAgent.generate_schedule`: the calendar result
plus a `tasks` list of (goal, load) pairs. -/
structure PlanResult where
  schedule : List ScheduleBlock
  total_duration : Nat
  tasks : List (String × String)
deriving DecidableEq

/-- Embedding of `PlannerAgent.generate_schedule` (src/main.py lines
161-166): run the calendar tool with duration 180, then tag each goal
`high` if it case-insensitively contains "math", else `medium`. The profile
argument is passed to the calendar tool and ignored there. -/
def generate_schedule (now : Nat) (goals : List String) : PlanResult :=
  let c := CalendarTool.execute now 180
  { schedule := c.schedule
    total_duration := c.total_duration
    tasks := goals.map (fun g => (g, if containsMath g then "high" else "medium")) }

/-- One entry of `session_data["observability_log"]` as appended by
`MindGuardian.log_event` (agent name and event name; the wall-clock
timestamp and the data payload are presentation-only and dropped). -/
structure LogEntry where
  agent : String
  event : String
deriving DecidableEq

/-- The mutable `session_data` dict of `MindGuardian` (src/main.py
lines 223-229), minus the log payloads. -/
structure SessionState where
  task_skips : Int
  current_mood : Int
  continuous_work_minutes : Int
  interventions : Int
  observability_log : List LogEntry
deriving DecidableEq

/-- View of the session state as the dict `SentinelAgent.check_signals`
reads (all three counters present). -/
def SessionState.toSessionData (s : SessionState) : SessionData :=
  { current_mood := some s.current_mood
    task_skips := some s.task_skips
    continuous_work_minutes := some s.continuous_work_minutes }

/-- Embedding of `CoachAgent.intervene` (src/main.py lines 195-198): calls
the Gemini mock with the prompt "coach" and returns its response. -/
def intervene : Option String := generate_content "coach"

/-- What one iteration of the sentinel loop did, besides updating the
session state. -/
structure StepTrace where
  post_state : SessionState
  alert : BurnoutAlert
  coach_msg : Option (Option String)
  replanned : Bool
deriving DecidableEq

/-- One iteration of the sentinel monitoring loop (src/main.py lines
272-294): add 15 work minutes; after step index 2 (printed steps 4 and 5)
add one task skip; run `check_signals`; append one log entry; if severity
is not LOW, invoke the coach, regenerate the schedule and increment the
interventions counter. -/
def sentinelStep (step : Nat) (s : SessionState) : StepTrace :=
  let s := { s with continuous_work_minutes := s.continuous_work_minutes + 15 }
  let s := if step > 2 then { s with task_skips := s.task_skips + 1 } else s
  let alert := check_signals s.toSessionData
  let s := { s with observability_log :=
    s.observability_log ++ [{ agent := "Sentinel", event := "alert_check" }] }
  if alert.severity ≠ "LOW" then
    { post_state := { s with interventions := s.interventions + 1 }
      alert := alert
      coach_msg := some intervene
      replanned := true }
  else
    { post_state := s, alert := alert, coach_msg := none, replanned := false }

/-- State of `session_data` when the sentinel loop starts: the initial
counters from `MindGuardian.__init__` (src/main.py lines 223-229); the twin
builder and planner stages before the loop only append their two log
entries and do not touch the counters (in particular `current_mood` stays
5 — the `mood` argument of `run_session` is only written to the profile). -/
def initial_session : SessionState :=
  { task_skips := 0
    current_mood := 5
    continuous_work_minutes := 0
    interventions := 0
    observability_log :=
      [{ agent := "TwinBuilder", event := "profile_updated" },
       { agent := "Planner", event := "schedule_generated" }] }

/-- The sentinel monitoring loop of `MindGuardian.run_session`
(src/main.py lines 272-294): `for step in range(5)`. -/
def sentinelLoop : SessionState × List StepTrace :=
  (List.range 5).foldl
    (fun acc step =>
      let t := sentinelStep step acc.1
      (t.post_state, acc.2 ++ [t]))
    (initial_session, [])

/-! ## Sanity checks on concrete inputs -/

example : check_signals ⟨some 2, some 3, some 60⟩ =
    ⟨"HIGH", ["low_mood", "high_skips", "overwork"], "replan"⟩ := by decide

example : check_signals ⟨some 5, some 0, some 10⟩ = ⟨"LOW", [], "continue"⟩ := by decide

example : check_signals ⟨some 2, some 0, some 10⟩ = ⟨"MEDIUM", ["low_mood"], "replan"⟩ := by
  decide

example : (CalendarTool.execute 0 180).schedule.map workLen = [50, 50, 50, 50] := by decide

example : (CalendarTool.execute 0 60).schedule.map workLen = [50, 50] := by decide

example : pySplit "  coach  me " = ["coach", "me"] := by decide

example : pySplit "" = [] := by decide

example : strLower "3HRS Math" = "3hrs math" := by decide

example : generate_content "coach" =
    some "I see you\x27ve done 45min high-load work. Let\x27s take a 10min breathing break." := by
  decide

example : generate_content "hello world" = some "Agent processed request" := by decide

/-! ## Theorems for the claims -/

/-- Helper: deserialization undoes serialization of a post-init profile. -/
theorem fromData_asdict (p : UserProfile) : UserProfile.fromData p.asdict = p := by
  cases p
  rfl

/-- C1: for every session_data, the alert's signals list contains `low_mood`
iff mood < 3, `high_skips` iff skips > 2, `overwork` iff work > 45 (counters
read with the source defaults); severity is HIGH iff at least two signals
fire, MEDIUM iff exactly one fires, LOW iff none fires; and the suggested
action is `replan` iff severity is not LOW, else `continue`. -/
theorem check_signals_spec (d : SessionData) :
    ("low_mood" ∈ (check_signals d).signals ↔ d.current_mood.getD 5 < 3) ∧
    ("high_skips" ∈ (check_signals d).signals ↔ d.task_skips.getD 0 > 2) ∧
    ("overwork" ∈ (check_signals d).signals ↔ d.continuous_work_minutes.getD 0 > 45) ∧
    ((check_signals d).severity =
      if 2 ≤ firedCount d then "HIGH" else if firedCount d = 1 then "MEDIUM" else "LOW") ∧
    ((check_signals d).suggested_action =
      if (check_signals d).severity = "LOW" then "continue" else "replan") := by
  rcases d with ⟨m, sk, w⟩
  by_cases h1 : m.getD 5 < 3 <;> by_cases h2 : sk.getD 0 > 2 <;>
    by_cases h3 : w.getD 0 > 45 <;>
    simp [check_signals, firedCount, h1, h2, h3]

/-- C10: missing counters are read as the healthy defaults 5, 0 and 0, so
`check_signals` on the empty dict is total and returns severity LOW, no
signals, action `continue`. -/
theorem check_signals_defaults :
    (∀ d : SessionData,
      check_signals d =
        check_signals ⟨some (d.current_mood.getD 5), some (d.task_skips.getD 0),
          some (d.continuous_work_minutes.getD 0)⟩) ∧
    check_signals ⟨none, none, none⟩ = ⟨"LOW", [], "continue"⟩ := by
  constructor
  · intro d
    rcases d with ⟨m, sk, w⟩
    rfl
  · decide

/-- C7: with duration 180 the schedule has exactly 4 blocks, each a
50-minute work block followed by a 10-minute break, for every start time. -/
theorem execute_180_blocks (now : Nat) :
    (CalendarTool.execute now 180).schedule.length = 4 ∧
    (CalendarTool.execute now 180).schedule.map workLen = [50, 50, 50, 50] ∧
    (CalendarTool.execute now 180).schedule.map ScheduleBlock.break_duration =
      ["10min", "10min", "10min", "10min"] := by
  have h : pyRange50 180 = [0, 50, 100, 150] := by decide
  simp [CalendarTool.execute, h, calendarLoop, workLen, Nat.add_min_add_left]

/-- C2 fails on the code: with duration 60 (not a multiple of 50) the
final block is a full 50-minute block, not truncated, and the total
scheduled work is 100 minutes, exceeding the 60-minute input. The `min`
in the source compares against the running `now` plus the duration
instead of the start time plus the duration, so it never truncates once
the duration is at least 50. -/
theorem execute_60_overruns :
    (CalendarTool.execute 0 60).schedule.map workLen = [50, 50] ∧
    ((CalendarTool.execute 0 60).schedule.map workLen).sum = 100 ∧
    ¬ ((CalendarTool.execute 0 60).schedule.map workLen).sum ≤ 60 := by decide

/-- C3: saving a profile then loading it for the same user_id returns the
profile field-for-field; the `updated_at` timestamp column is dropped. -/
theorem save_load_roundtrip (db : Store) (p : UserProfile) (t : Nat) (now : String) :
    load_profile (save_profile db p t) p.user_id now = p := by
  simp [load_profile, save_profile]
  exact fromData_asdict p

/-- C4: loading a never-saved user_id does not fail: it returns a defaulted
profile with that user_id, empty goals, mood history, peak hours and
burnout patterns, and completion rate 0. -/
theorem load_profile_fresh (db : Store) (user_id now : String)
    (h : db user_id = none) :
    load_profile db user_id now =
      { user_id := user_id, goals := [], mood_history := [], burnout_patterns := [],
        peak_hours := [], task_completion_rate := 0, created_at := some now } := by
  simp [load_profile, h]

theorem load_profile_fresh_witness :
    Store.empty "student_123" = none ∧
    load_profile Store.empty "student_123" "2026-10-12T00:00:00" =
      { user_id := "student_123", goals := [], mood_history := [], burnout_patterns := [],
        peak_hours := [], task_completion_rate := 0,
        created_at := some "2026-10-12T00:00:00" } :=
  ⟨rfl, load_profile_fresh Store.empty "student_123" "2026-10-12T00:00:00" rfl⟩

/-- C9: `build_profile` keeps the loaded profile's user_id and only appends
to its mood history: exactly one new entry, all prior entries unchanged
(the profile-modifying operations of the program all go through
`build_profile`). -/
theorem build_profile_appends (db : Store) (user_id : String) (goals : List String)
    (mood : Int) (now : String) (t : Nat) :
    ((build_profile db user_id goals mood now t).1.user_id =
      (load_profile db user_id now).user_id) ∧
    ((build_profile db user_id goals mood now t).1.mood_history =
      (load_profile db user_id now).mood_history ++
        [{ timestamp := now, mood := mood, context := "session_start" }]) ∧
    ((build_profile db user_id goals mood now t).1.mood_history.length =
      (load_profile db user_id now).mood_history.length + 1) ∧
    ((build_profile db user_id goals mood now t).1.mood_history.take
        (load_profile db user_id now).mood_history.length =
      (load_profile db user_id now).mood_history) := by
  refine ⟨rfl, rfl, by simp [build_profile], by simp [build_profile]⟩

/-- C8 fails as stated: on the empty prompt, `prompt.split()` is empty and
indexing `[0]` raises `IndexError`; `generate_content` does not return a
string there. -/
theorem generate_content_empty_fails : generate_content "" = none := by decide

/-- C8 amended: for every prompt containing at least one whitespace-separated
word, `generate_content` returns a string: the canned response when the
lowercased first word is a known key, else the fallback
"Agent processed request". -/
theorem generate_content_total_on_words (prompt : String)
    (h : pySplit prompt ≠ []) :
    ∃ r, generate_content prompt = some r ∧
      (match responses.lookup (strLower ((pySplit prompt).headD "")) with
       | some canned => r = canned
       | none => r = "Agent processed request") := by
  unfold generate_content
  rcases hs : pySplit prompt with _ | ⟨w, ws⟩
  · exact absurd hs h
  · refine ⟨(responses.lookup (strLower w)).getD "Agent processed request", rfl, ?_⟩
    rcases hl : responses.lookup (strLower w) with _ | canned <;> simp [hl]

theorem generate_content_total_on_words_witness :
    pySplit "coach me please" ≠ [] ∧
    ∃ r, generate_content "coach me please" = some r ∧
      (match responses.lookup (strLower ((pySplit "coach me please").headD "")) with
       | some canned => r = canned
       | none => r = "Agent processed request") :=
  ⟨by decide, generate_content_total_on_words "coach me please" (by decide)⟩

/-- C6: `generate_schedule` tags the goals in order, `high` exactly when the
goal case-insensitively contains "math", else `medium`; on the demo goals
the tags are [high, medium]. -/
theorem generate_schedule_tags (now : Nat) (goals : List String) :
    ((generate_schedule now goals).tasks =
      goals.map (fun g => (g, if containsMath g then "high" else "medium"))) ∧
    ((generate_schedule now ["3hrs math review", "2hrs physics notes"]).tasks.map Prod.snd =
      ["high", "medium"]) := by
  exact ⟨rfl, rfl⟩

/-- C5: the loop runs exactly 5 steps; the per-step traces show work
minutes rising by 15 each step (15,30,45,60,75), task skips incremented
only in the two steps after printed step 3 (0,0,0,1,2), one log entry
appended per step (lengths 3..7 over the 2 pre-loop entries), the
interventions counter incremented exactly in the non-LOW steps (0,0,0,1,2
alongside severities LOW,LOW,LOW,MEDIUM,MEDIUM); the coach is invoked and
the schedule regenerated exactly in the steps whose severity is not LOW;
and the final state has 75 work minutes and 2 skips. -/
theorem run_session_loop_spec :
    sentinelLoop.2.length = 5 ∧
    sentinelLoop.1.continuous_work_minutes = 75 ∧
    sentinelLoop.1.task_skips = 2 ∧
    sentinelLoop.2.map (fun t =>
        (t.post_state.continuous_work_minutes, t.post_state.task_skips,
         t.post_state.interventions, t.post_state.observability_log.length,
         t.alert.severity)) =
      [(15, 0, 0, 3, "LOW"), (30, 0, 0, 4, "LOW"), (45, 0, 0, 5, "LOW"),
       (60, 1, 1, 6, "MEDIUM"), (75, 2, 2, 7, "MEDIUM")] ∧
    sentinelLoop.2.all (fun t =>
      t.coach_msg.isSome == decide (t.alert.severity ≠ "LOW") &&
      t.replanned == decide (t.alert.severity ≠ "LOW")) = true := by
  decide

end MindGuardian
